import Mathlib

/-!
Verification development for the HTML5Validator repository (src/html5.py).

The audit pipeline of `html5.py` is shallowly embedded here:

* Pure string logic (`parse_robots_meta`, the title / heading / image-alt
  classifications of `App.run_audit_thread`, the URL normalization of
  `App.run_audit`) is translated directly into Lean functions.

* Effectful functions (`validate_with_vnu`, `selenium_fetch`,
  `audit_website_selenium`) are embedded as functions over an explicit
  environment record describing the outcomes of the external operations
  (file system, Java subprocess, browser driver).  Each such function also
  returns the list of resource events it performed (temp-file creation and
  unlink, driver start and quit), so that resource-handling claims become
  statements about the event trace.

Python string primitives (`in`, `startswith`, `lower`, `strip`, truthiness)
are modelled on `String.data`, the underlying character list.
-/

namespace HTML5Validator

/-! ### Embeddings of the Python string primitives used by html5.py -/

/-- Embedding of Python `pat in s`: `pat` occurs as a contiguous substring. -/
def strContains (s pat : String) : Bool := decide (pat.data <:+: s.data)

/-- Embedding of Python `s.startswith(pre)`. -/
def py_startswith (s pre : String) : Bool := decide (pre.data <+: s.data)

/-- Embedding of Python `s.lower()` (ASCII case folding). -/
def py_lower (s : String) : String := ⟨s.data.map Char.toLower⟩

/-- Embedding of Python `s.strip()`: drop leading and trailing whitespace. -/
def py_strip (s : String) : String :=
  ⟨((s.data.dropWhile Char.isWhitespace).reverse.dropWhile Char.isWhitespace).reverse⟩

/-- Python truthiness of an optional string: `None` and `""` are falsy. -/
def pyTruthy : Option String → Bool
  | none => false
  | some s => !s.isEmpty

/-- Case-insensitive containment: `pat` (itself lowercase in every use below)
occurs in the lowercased form of `s`.  This is exactly the check that
`parse_robots_meta` performs, since it lowercases its input first. -/
def containsCI (s pat : String) : Bool := strContains (py_lower s) pat

/-! ### Severity classification

`App.run_audit_thread` encodes each check's health as a glyph plus a color
tag (`green` / `orange` / `red`).  We carry the classification as a severity
value: `healthy` = green / check mark, `warning` = orange / warning sign,
`error` = red / cross. -/

/-- Severity of a report line, as encoded by the color tags of the source. -/
inductive Sev where
  | healthy
  | warning
  | error
deriving DecidableEq

/-! ### parse_robots_meta (src/html5.py lines 167-176)

The Python function returns a dict literal with exactly four keys, in this
insertion order; we embed it as an association list to keep the keys
observable. -/

/-- Embedding of `parse_robots_meta`: `content = (content or "").lower()`,
then four classifications by substring presence. -/
def parse_robots_meta (content : Option String) : List (String × String) :=
  let c := py_lower (content.getD "")
  [("Indexing", if strContains c "noindex" then "Disallowed" else "Allowed"),
   ("Following Links", if strContains c "nofollow" then "Disallowed" else "Allowed"),
   ("Snippets", if strContains c "nosnippet" then "Disallowed" else "Allowed"),
   ("Image Previews",
     if strContains c "max-image-preview:large" then "Large"
     else if strContains c "max-image-preview:standard" then "Standard"
     else if strContains c "max-image-preview:none" then "None"
     else "Not specified")]

/-! ### Title, H1 and image-alt classifications (App.run_audit_thread) -/

/-- Embedding of the title check (src/html5.py lines 325-331):
`if title:` then healthy iff `10 <= len(title) <= 70` else warning;
a falsy title (absent or empty) is an error. -/
def titleCheck (title : Option String) : Sev :=
  if pyTruthy title then
    let t := title.getD ""
    if 10 ≤ t.length ∧ t.length ≤ 70 then Sev.healthy else Sev.warning
  else Sev.error

/-- Embedding of the H1 check (src/html5.py lines 333-339):
`len(h1s) == 0` is an error, `== 1` healthy, otherwise a warning. -/
def h1Check (h1s : List String) : Sev :=
  if h1s.length = 0 then Sev.error
  else if h1s.length = 1 then Sev.healthy
  else Sev.warning

/-- An image record as built at src/html5.py line 201:
`{"src": img.get("src"), "alt": img.get("alt")}`.  `none` models an absent
attribute (Python `None`). -/
structure Img where
  src : Option String
  alt : Option String
deriving DecidableEq

/-- Embedding of src/html5.py line 200:
`sum(1 for img in images if img.get("alt"))` — images with truthy alt. -/
def images_with_alt (imgs : List Img) : Nat :=
  (imgs.filter (fun i => pyTruthy i.alt)).length

/-- Embedding of src/html5.py line 357:
`sum(1 for i in images_list if not i["alt"])` — images with falsy alt. -/
def missing_alt_count (imgs : List Img) : Nat :=
  (imgs.filter (fun i => !pyTruthy i.alt)).length

/-- Embedding of the image-alt report line (src/html5.py lines 353-359):
an empty image list is a warning with the "No images found" message;
otherwise the severity is a warning iff the missing count is nonzero,
and the value is the `missing/total missing alt text` message. -/
def imageAltLine (imgs : List Img) : Sev × String :=
  if imgs.isEmpty then (Sev.warning, "No images found")
  else
    let m := missing_alt_count imgs
    let n := imgs.length
    (if m ≠ 0 then Sev.warning else Sev.healthy, s!"{m}/{n} missing alt text")

/-! ### validate_with_vnu (src/html5.py lines 94-134)

The result dict of `validate_with_vnu` and the diagnostic records inside it. -/

/-- A validator diagnostic record: the fields of each entry of the
`messages` array used by the source (`type`, `message`). -/
structure Msg where
  type : String
  message : String
deriving DecidableEq

/-- The result dict of `validate_with_vnu`:
`{"available": ..., "valid": ..., "messages": ..., "error": ...}`. -/
structure ValidationResult where
  available : Bool
  valid : Option Bool
  messages : List Msg
  error : Option String
deriving DecidableEq

/-- Resource events performed by the embedded effectful functions. -/
inductive Event where
  | tmpCreated
  | procRun
  | tmpUnlinked
  | driverStarted
  | driverQuit
deriving DecidableEq

/-- Outcome of the `subprocess.run` call on the validator jar:
it completes with an exit code plus captured stdout/stderr, raises
`TimeoutExpired`, or raises some other exception. -/
inductive ProcOutcome where
  | completed (returncode : Int) (stdout : String) (stderr : String)
  | timedOut
  | failed (msg : String)
deriving DecidableEq

/-- Environment for one call of `validate_with_vnu`:
`vnuPresent` = `os.path.isfile(VNU_PATH)`; `javaFound` = whether
`find_java_executable()` returns a runtime; `tmpCreateOk` = whether
`tempfile.NamedTemporaryFile(...)` itself succeeds (on failure `tmp`
stays `None` and no file exists); `writeOk` = whether writing and closing
the temp file succeeds; `outcome` = the subprocess outcome; `jsonMessages`
models `json.loads(raw).get("messages", [])` — `some ms` when that
expression evaluates to the list `ms`, `none` when it raises (the raw
output is not JSON, or the parsed value has no `get`). -/
structure VnuEnv where
  vnuPresent : Bool
  javaFound : Bool
  tmpCreateOk : Bool
  writeOk : Bool
  outcome : ProcOutcome
  jsonMessages : Option (List Msg)
deriving DecidableEq

/-- Embedding of src/html5.py lines 113-115:
`stdout = proc.stdout.strip() if proc.stdout else ""` (same for stderr),
`raw = stderr or stdout`. -/
def vnuRaw (stdout stderr : String) : String :=
  let so := py_strip stdout
  let se := py_strip stderr
  if se.isEmpty then so else se

/-- Embedding of `validate_with_vnu` (src/html5.py lines 94-134) over an
explicit environment.  The second component is the trace of resource
events; the `finally` block unlinks the temp file whenever `tmp` is not
`None`, i.e. on every path that created it. -/
def validate_with_vnu (env : VnuEnv) (html_text : String) :
    ValidationResult × List Event :=
  if !env.vnuPresent then
    (⟨false, none, [], some "vnu.jar not found."⟩, [])
  else if !env.javaFound then
    (⟨false, none, [], some "Java runtime not found."⟩, [])
  else if !env.tmpCreateOk then
    (⟨true, none, [], some "tempfile creation failed"⟩, [])
  else if !env.writeOk then
    (⟨true, none, [], some "tempfile write failed"⟩,
     [Event.tmpCreated, Event.tmpUnlinked])
  else
    match env.outcome with
    | ProcOutcome.completed rc stdout stderr =>
      if rc = 0 then
        (⟨true, some true, [], none⟩,
         [Event.tmpCreated, Event.procRun, Event.tmpUnlinked])
      else
        let raw := vnuRaw stdout stderr
        let messages :=
          match env.jsonMessages with
          | some ms => ms
          | none => [⟨"error", raw⟩]
        (⟨true, some false, messages, none⟩,
         [Event.tmpCreated, Event.procRun, Event.tmpUnlinked])
    | ProcOutcome.timedOut =>
      (⟨true, none, [], some "Validation timed out."⟩,
       [Event.tmpCreated, Event.procRun, Event.tmpUnlinked])
    | ProcOutcome.failed msg =>
      (⟨true, none, [], some msg⟩,
       [Event.tmpCreated, Event.procRun, Event.tmpUnlinked])

/-! ### selenium_fetch (src/html5.py lines 139-162) -/

/-- Environment for one call of `selenium_fetch`: whether
`webdriver.Chrome(...)` succeeds, whether `driver.get(url)` succeeds,
the value returned by the navigation-timing script (`none` when the
script raises), whether reading `driver.page_source` and taking the
screenshot succeed, the page source delivered, and the wall-clock
duration measurement. -/
structure FetchEnv where
  driverStartOk : Bool
  getOk : Bool
  perfResult : Option Int
  pageSourceOk : Bool
  screenshotOk : Bool
  pageSource : String
  durationMs : Int
deriving DecidableEq

/-- The tuple returned by a successful `selenium_fetch`:
`(page_source, screenshot_path, page_load_ms, duration_ms)`. -/
structure FetchOk where
  page_source : String
  screenshot_path : String
  page_load_ms : Option Int
  duration_ms : Int
deriving DecidableEq

/-- Embedding of `selenium_fetch` (src/html5.py lines 139-162).
`Except.error` models an exception propagating out of the function.
The only guarded step in the source is the timing script (its `try`
yields `page_load_ms = None` on failure); `driver.get`,
`driver.page_source` and `driver.save_screenshot` are unguarded, and
`driver.quit()` is executed only after all of them succeed. -/
def selenium_fetch (env : FetchEnv) (url : String) :
    Except String FetchOk × List Event :=
  if !env.driverStartOk then
    (Except.error "could not start Chrome driver", [])
  else if !env.getOk then
    (Except.error "navigation failed", [Event.driverStarted])
  else
    let page_load_ms :=
      match env.perfResult with
      | some v => if 0 < v then some v else none
      | none => none
    if !env.pageSourceOk then
      (Except.error "reading page_source failed", [Event.driverStarted])
    else if !env.screenshotOk then
      (Except.error "save_screenshot failed", [Event.driverStarted])
    else
      (Except.ok ⟨env.pageSource, "page_preview.png", page_load_ms, env.durationMs⟩,
       [Event.driverStarted, Event.driverQuit])

/-! ### audit_website_selenium (src/html5.py lines 178-210) -/

/-- The signals that `audit_website_selenium` extracts from the parsed DOM
(BeautifulSoup is an external library; its extraction results are supplied
by the environment).  `robots_content` is already defaulted to `""` as at
src/html5.py line 203. -/
structure ParseEnv where
  doctype : Option String
  lang : Option String
  title : Option String
  h1s : List String
  canonical : Option String
  images : List Img
  robots_content : String
  og_tags : List String
  twitter_tags : List String
deriving DecidableEq

/-- The result dict built by a successful `audit_website_selenium`. -/
structure AuditResult where
  fetch_duration_ms : Int
  screenshot : String
  page_load_ms : Option Int
  raw_html : String
  doctype : String
  lang : Option String
  title : Option String
  h1s : List String
  canonical : Option String
  images_total : Nat
  images_with_alt : Nat
  images_list : List Img
  robots_content : String
  robots_parsed : List (String × String)
  og_tags : List String
  twitter_tags : List String
  html5_validation : ValidationResult
deriving DecidableEq

/-- Embedding of `audit_website_selenium` (src/html5.py lines 178-210):
a fetch failure is caught and returned as a single error value; otherwise
the result dict is assembled and `validate_with_vnu` is run on the fetched
HTML, its result embedded under `html5_validation`. -/
def audit_website_selenium (fenv : FetchEnv) (penv : ParseEnv) (venv : VnuEnv)
    (url : String) : Except String AuditResult × List Event :=
  match selenium_fetch fenv url with
  | (Except.error e, tr) =>
    (Except.error ("Failed to fetch URL with Selenium: " ++ e), tr)
  | (Except.ok f, tr) =>
    let v := validate_with_vnu venv f.page_source
    (Except.ok
      { fetch_duration_ms := f.duration_ms
        screenshot := f.screenshot_path
        page_load_ms := f.page_load_ms
        raw_html := f.page_source
        doctype := penv.doctype.getD "Missing"
        lang := penv.lang
        title := penv.title
        h1s := penv.h1s
        canonical := penv.canonical
        images_total := penv.images.length
        images_with_alt := images_with_alt penv.images
        images_list := penv.images
        robots_content := penv.robots_content
        robots_parsed := parse_robots_meta (some penv.robots_content)
        og_tags := penv.og_tags
        twitter_tags := penv.twitter_tags
        html5_validation := v.1 }, tr ++ v.2)

/-- The fetch environment makes every unguarded driver step succeed. -/
def fetchOkFlags (fenv : FetchEnv) : Bool :=
  fenv.driverStartOk && fenv.getOk && fenv.pageSourceOk && fenv.screenshotOk

/-! ### App.run_audit URL handling (src/html5.py lines 396-402) -/

/-- Embedding of the URL handling of `App.run_audit`:
`url = entry.strip()`; an empty string aborts (no audit, modelled as
`none`); otherwise `if not url.startswith("http"): url = "http://" + url`
and the audit is invoked on the result. -/
def run_audit_url (input : String) : Option String :=
  let url := py_strip input
  if url.isEmpty then none
  else if py_startswith url "http" then some url
  else some ("http://" ++ url)

/-- Modelled from the spec: "scheme-less input is normalized by prefixing
`http://`".  A URL string declares a scheme when a colon is present and the
text before the first colon is a nonempty scheme name (a letter followed by
letters, digits, plus, minus or dot).  The source has no such check:
`App.run_audit` tests `url.startswith("http")` instead.  This definition is
used only to state claim C3 against the source's behavior. -/
def declaresScheme (s : String) : Bool :=
  s.data.contains ':' &&
    match s.data.takeWhile (fun c => c ≠ ':') with
    | [] => false
    | c :: rest =>
      c.isAlpha && rest.all (fun d => d.isAlphanum || d = '+' || d = '-' || d = '.')

/-! ### Helper lemmas -/

lemma filter_not_length_add (p : Img → Bool) (l : List Img) :
    (l.filter (fun x => !p x)).length + (l.filter p).length = l.length := by
  induction l with
  | nil => rfl
  | cons a l ih =>
    by_cases h : p a = true <;> simp [List.filter, h] <;> omega

lemma str_length_ne_zero {t : String} (ht : t ≠ "") : t.length ≠ 0 := by
  intro h0
  apply ht
  cases t with
  | mk d =>
    have hd : d = [] := List.length_eq_zero.mp h0
    subst hd; rfl

/-! ### Claim theorems -/

/-- C4: the title check is classified healthy if and only if the title is
present with character length in the inclusive bound 10..70; a present
non-empty title with length below or above the bound is a warning; an
absent or empty title is an error. -/
theorem title_length_classification (title : Option String) :
    (titleCheck title = Sev.healthy ↔
       ∃ t, title = some t ∧ 10 ≤ t.length ∧ t.length ≤ 70)
  ∧ (titleCheck title = Sev.warning ↔
       ∃ t, title = some t ∧ t.isEmpty = false ∧ (t.length < 10 ∨ 70 < t.length))
  ∧ (titleCheck title = Sev.error ↔ (title = none ∨ title = some "")) := by
  cases title with
  | none => simp [titleCheck, pyTruthy]
  | some t =>
    by_cases he : t.isEmpty
    · have ht : t = "" := (String.isEmpty_iff t).mp he
      subst ht
      simp [titleCheck, pyTruthy, show ("".isEmpty) = true from rfl]
    · simp only [Bool.not_eq_true] at he
      have ht : t ≠ "" := fun h => by rw [h] at he; exact absurd he (by decide)
      have hlen : t.length ≠ 0 := str_length_ne_zero ht
      simp only [titleCheck, pyTruthy, he, Bool.not_false, if_true, Option.getD_some,
        Option.some.injEq, reduceCtorEq, or_false, false_or]
      by_cases hb : 10 ≤ t.length ∧ t.length ≤ 70
      · rw [if_pos hb]
        refine ⟨?_, ?_, ?_⟩
        · simp only [true_iff]
          exact ⟨t, rfl, hb⟩
        · constructor
          · intro h; exact absurd h (by decide)
          · rintro ⟨u, rfl, -, hout⟩
            omega
        · constructor
          · intro h; exact absurd h (by decide)
          · intro h; exact (ht h).elim
      · rw [if_neg hb]
        rw [Decidable.not_and_iff_or_not] at hb
        refine ⟨?_, ?_, ?_⟩
        · constructor
          · intro h; exact absurd h (by decide)
          · rintro ⟨u, rfl, h10, h70⟩
            omega
        · simp only [true_iff]
          exact ⟨t, rfl, he, by omega⟩
        · constructor
          · intro h; exact absurd h (by decide)
          · intro h; exact (ht h).elim

/-- C5: zero extracted H1 headings is an error, exactly one is healthy,
and any count greater than one is a warning. -/
theorem h1_count_classification (h1s : List String) :
    (h1Check h1s = Sev.error ↔ h1s.length = 0)
  ∧ (h1Check h1s = Sev.healthy ↔ h1s.length = 1)
  ∧ (h1Check h1s = Sev.warning ↔ 1 < h1s.length) := by
  unfold h1Check
  split_ifs with h0 h1 <;>
    refine ⟨?_, ?_, ?_⟩ <;>
    constructor <;>
    intro h <;>
    first
      | rfl
      | omega
      | exact absurd h (by decide)

/-- C7: the reported missing-alt count equals the total number of images
minus the number of images with a truthy (non-empty) alt attribute; the
empty image list gives a warning with the explicit "No images found"
message rather than a healthy line; a nonzero missing count gives a
warning, and full coverage on a non-empty list is healthy. -/
theorem image_alt_coverage (imgs : List Img) :
    missing_alt_count imgs = imgs.length - images_with_alt imgs
  ∧ imageAltLine [] = (Sev.warning, "No images found")
  ∧ ((imageAltLine imgs).1 = Sev.warning ↔
       (imgs.isEmpty = true ∨ 0 < missing_alt_count imgs))
  ∧ ((imageAltLine imgs).1 = Sev.healthy ↔
       (imgs.isEmpty = false ∧ missing_alt_count imgs = 0)) := by
  have hadd := filter_not_length_add (fun i => pyTruthy i.alt) imgs
  refine ⟨by unfold missing_alt_count images_with_alt at *; omega, rfl, ?_, ?_⟩ <;>
  · cases himgs : imgs.isEmpty
    · by_cases hm : missing_alt_count imgs = 0 <;>
        simp [imageAltLine, himgs, hm] <;> omega
    · simp [imageAltLine, himgs]

lemma char_toLower_ofNat_toNat {c : Char} (h1 : 65 ≤ c.toNat) (h2 : c.toNat ≤ 90) :
    (Char.ofNat (c.toNat + 32)).toNat = c.toNat + 32 := by
  generalize hn : c.toNat = n at h1 h2
  interval_cases n <;> decide

lemma char_toLower_idem (c : Char) : Char.toLower (Char.toLower c) = Char.toLower c := by
  simp only [Char.toLower]
  by_cases h : c.toNat ≥ 65 ∧ c.toNat ≤ 90
  · rw [if_pos h]
    have key := char_toLower_ofNat_toNat h.1 h.2
    rw [if_neg (by rw [key]; omega)]
  · rw [if_neg h, if_neg h]

lemma map_toLower_idem (l : List Char) :
    (l.map Char.toLower).map Char.toLower = l.map Char.toLower := by
  induction l with
  | nil => rfl
  | cons c l ih => simp [ih, char_toLower_idem]

lemma py_lower_idem (s : String) : py_lower (py_lower s) = py_lower s := by
  unfold py_lower
  exact congrArg String.mk (map_toLower_idem s.data)

/-- C6: `parse_robots_meta` classifies Indexing as "Disallowed" exactly when
the content contains the token `noindex` (the containment is performed on
the lowercased content, since the function lowercases its input first) and
"Allowed" otherwise; symmetrically for `nofollow` / Following Links and
`nosnippet` / Snippets; Image Previews resolves the `max-image-preview:`
values in the precedence large, standard, none, defaulting to
"Not specified". -/
theorem robots_directive_classification (s : String) :
    ((parse_robots_meta (some s)).lookup "Indexing" =
       some (if containsCI s "noindex" then "Disallowed" else "Allowed"))
  ∧ ((parse_robots_meta (some s)).lookup "Following Links" =
       some (if containsCI s "nofollow" then "Disallowed" else "Allowed"))
  ∧ ((parse_robots_meta (some s)).lookup "Snippets" =
       some (if containsCI s "nosnippet" then "Disallowed" else "Allowed"))
  ∧ ((parse_robots_meta (some s)).lookup "Image Previews" =
       some (if containsCI s "max-image-preview:large" then "Large"
             else if containsCI s "max-image-preview:standard" then "Standard"
             else if containsCI s "max-image-preview:none" then "None"
             else "Not specified")) := by
  refine ⟨rfl, ?_, ?_, ?_⟩ <;> simp [parse_robots_meta, containsCI, List.lookup]

/-- C10: `parse_robots_meta` is total — it is defined on every optional
content string including the absent one — and always returns exactly the
four keys Indexing, Following Links, Snippets, Image Previews in order;
its classification is case-insensitive: the result on a string equals the
result on its lowercase form. -/
theorem robots_total_four_keys_case_insensitive :
    (∀ c : Option String,
       (parse_robots_meta c).map Prod.fst =
         ["Indexing", "Following Links", "Snippets", "Image Previews"])
  ∧ (∀ s : String,
       parse_robots_meta (some s) = parse_robots_meta (some (py_lower s))) := by
  constructor
  · intro c; cases c <;> rfl
  · intro s
    show parse_robots_meta (some s) = parse_robots_meta (some (py_lower s))
    unfold parse_robots_meta
    rw [show ((some (py_lower s)).getD "") = py_lower s from rfl,
        show ((some s).getD "") = s from rfl, py_lower_idem]

/-- C2 (amended): when the validator jar and a Java runtime are found and
the subprocess completes, exit code 0 yields `valid = true` with an empty
messages list; a nonzero exit code yields `valid = false` with exactly the
messages list extracted from the JSON payload (which may be empty); when
the output cannot be interpreted as JSON, exactly one synthetic diagnostic
of type "error" carrying the raw output is produced. -/
theorem vnu_exit_code_behavior (env : VnuEnv) (html_text : String)
    (hv : env.vnuPresent = true) (hj : env.javaFound = true)
    (ht : env.tmpCreateOk = true) (hw : env.writeOk = true)
    (rc : Int) (stdout stderr : String)
    (ho : env.outcome = ProcOutcome.completed rc stdout stderr) :
    (rc = 0 →
       (validate_with_vnu env html_text).1 = ⟨true, some true, [], none⟩)
  ∧ (rc ≠ 0 → ∀ ms, env.jsonMessages = some ms →
       (validate_with_vnu env html_text).1 = ⟨true, some false, ms, none⟩)
  ∧ (rc ≠ 0 → env.jsonMessages = none →
       (validate_with_vnu env html_text).1 =
         ⟨true, some false, [⟨"error", vnuRaw stdout stderr⟩], none⟩) := by
  unfold validate_with_vnu
  rw [hv, hj, ht, hw, ho]
  refine ⟨fun h0 => ?_, fun hne ms hms => ?_, fun hne hnone => ?_⟩
  · simp [h0]
  · simp [hne, hms]
  · simp [hne, hnone]

/-- Concrete environment: the subprocess exits 1 and prints only to stderr,
whose content is not JSON. -/
def vnuEnvA : VnuEnv :=
  ⟨true, true, true, true, ProcOutcome.completed 1 "" "boom", none⟩

/-- Witness for `vnu_exit_code_behavior` at a concrete environment. -/
theorem vnu_exit_code_behavior_witness :
    (validate_with_vnu vnuEnvA "<p>").1 =
      ⟨true, some false, [⟨"error", vnuRaw "" "boom"⟩], none⟩ :=
  (vnu_exit_code_behavior vnuEnvA "<p>" rfl rfl rfl rfl 1 "" "boom" rfl).2.2
    (by decide) rfl

/-- Concrete environment: the subprocess exits 1 with output that parses as
JSON whose messages array is empty, so
`json.loads(raw).get("messages", [])` yields `[]`. -/
def vnuEnvEmptyJson : VnuEnv :=
  ⟨true, true, true, true,
   ProcOutcome.completed 1 "\x7b\"messages\": []\x7d" "", some []⟩

/-- C2 (counterexample): a nonzero exit whose output parses as JSON can
yield an empty messages list — the subprocess exits with code 1 and prints
a JSON body with an empty `messages` array, yet `validate_with_vnu`
returns `valid = false` with `messages = []`, contradicting the claimed
"non-empty messages list". -/
theorem vnu_nonzero_empty_messages_counterexample :
    vnuEnvEmptyJson.outcome =
      ProcOutcome.completed 1 "\x7b\"messages\": []\x7d" ""
  ∧ vnuEnvEmptyJson.jsonMessages = some []
  ∧ (validate_with_vnu vnuEnvEmptyJson "<html></html>").1.valid = some false
  ∧ (validate_with_vnu vnuEnvEmptyJson "<html></html>").1.messages = [] := by
  refine ⟨rfl, rfl, by decide, by decide⟩

/-- C8: on every execution path of `validate_with_vnu` that created the
temporary HTML file — successful run, nonzero exit, subprocess timeout, or
any other execution failure — the file is unlinked before the function
returns. -/
theorem vnu_temp_file_always_deleted (env : VnuEnv) (html_text : String)
    (h : Event.tmpCreated ∈ (validate_with_vnu env html_text).2) :
    Event.tmpUnlinked ∈ (validate_with_vnu env html_text).2 := by
  obtain ⟨v, j, t, w, o, m⟩ := env
  cases o with
  | completed rc stdout stderr =>
    by_cases hrc : rc = 0 <;>
      cases v <;> cases j <;> cases t <;> cases w <;> simp_all [validate_with_vnu]
  | timedOut =>
    cases v <;> cases j <;> cases t <;> cases w <;> simp_all [validate_with_vnu]
  | failed msg =>
    cases v <;> cases j <;> cases t <;> cases w <;> simp_all [validate_with_vnu]

/-- Concrete environment: the validator subprocess times out. -/
def vnuEnvTimeout : VnuEnv :=
  ⟨true, true, true, true, ProcOutcome.timedOut, none⟩

/-- Witness for `vnu_temp_file_always_deleted` at a concrete environment. -/
theorem vnu_temp_file_always_deleted_witness :
    Event.tmpUnlinked ∈ (validate_with_vnu vnuEnvTimeout "<p>").2 :=
  vnu_temp_file_always_deleted vnuEnvTimeout "<p>" (by decide)

/-- C9: whenever the validator jar or a Java runtime is missing,
`validate_with_vnu` returns `available = false`, `valid = none`, an empty
messages list and a descriptive error string, and — provided the fetch
itself succeeds — `audit_website_selenium` still returns a successful
audit result with this degraded validation record embedded. -/
theorem validator_unavailable_degrades (venv : VnuEnv) (fenv : FetchEnv)
    (penv : ParseEnv) (url html_text : String)
    (hun : venv.vnuPresent = false ∨ venv.javaFound = false) :
    ((validate_with_vnu venv html_text).1.available = false
     ∧ (validate_with_vnu venv html_text).1.valid = none
     ∧ (validate_with_vnu venv html_text).1.messages = []
     ∧ ((validate_with_vnu venv html_text).1.error = some "vnu.jar not found."
        ∨ (validate_with_vnu venv html_text).1.error = some "Java runtime not found."))
  ∧ (fetchOkFlags fenv = true →
       ∃ a, (audit_website_selenium fenv penv venv url).1 = Except.ok a
         ∧ a.html5_validation.available = false
         ∧ a.html5_validation.valid = none
         ∧ a.html5_validation.messages = []
         ∧ (a.html5_validation.error = some "vnu.jar not found."
            ∨ a.html5_validation.error = some "Java runtime not found.")) := by
  have key : ∀ h : String,
      (validate_with_vnu venv h).1.available = false
      ∧ (validate_with_vnu venv h).1.valid = none
      ∧ (validate_with_vnu venv h).1.messages = []
      ∧ ((validate_with_vnu venv h).1.error = some "vnu.jar not found."
         ∨ (validate_with_vnu venv h).1.error = some "Java runtime not found.") := by
    intro h
    unfold validate_with_vnu
    rcases hun with h1 | h1
    · simp [h1]
    · cases hv : venv.vnuPresent <;> simp [hv, h1]
  refine ⟨key html_text, fun hfetch => ?_⟩
  obtain ⟨d, g, p, ps, sc, src, dur⟩ := fenv
  simp only [fetchOkFlags, Bool.and_eq_true] at hfetch
  obtain ⟨⟨⟨hd, hg⟩, hps⟩, hsc⟩ := hfetch
  subst hd; subst hg; subst hps; subst hsc
  unfold audit_website_selenium selenium_fetch
  simp only [Bool.not_true, Bool.false_eq_true, if_false]
  exact ⟨_, rfl, key src⟩

/-- Concrete environment: vnu.jar is absent. -/
def venvNoVnu : VnuEnv := ⟨false, true, true, true, ProcOutcome.timedOut, none⟩

/-- Concrete environment: every browser step succeeds. -/
def fenvAllOk : FetchEnv := ⟨true, true, some 100, true, true, "<html></html>", 42⟩

/-- Concrete environment: a page with no extracted signals. -/
def parseEnvEmpty : ParseEnv := ⟨none, none, none, [], none, [], "", [], []⟩

/-- Witness for `validator_unavailable_degrades` at a concrete environment. -/
theorem validator_unavailable_degrades_witness :
    (validate_with_vnu venvNoVnu "<p>").1.available = false :=
  (validator_unavailable_degrades venvNoVnu fenvAllOk parseEnvEmpty
    "http://example.com" "<p>" (Or.inl rfl)).1.1

/-- Concrete environment: the driver starts but `driver.get` raises (for
example the host is unreachable). -/
def fetchEnvNavFail : FetchEnv := ⟨true, false, none, true, true, "", 0⟩

/-- C1 (code bug): when navigation raises, `selenium_fetch` propagates the
error without quitting the driver — the event trace records the driver
start but contains no `driverQuit` event, because `driver.quit()` at
src/html5.py line 160 is not protected by any `try`/`finally` and is only
reached after `driver.get`, `driver.page_source` and
`driver.save_screenshot` have all succeeded. -/
theorem selenium_fetch_navigation_failure_skips_quit :
    (selenium_fetch fetchEnvNavFail "http://unreachable.invalid/").1 =
      Except.error "navigation failed"
  ∧ Event.driverStarted ∈
      (selenium_fetch fetchEnvNavFail "http://unreachable.invalid/").2
  ∧ ((selenium_fetch fetchEnvNavFail "http://unreachable.invalid/").2.contains
      Event.driverQuit) = false := by
  refine ⟨rfl, by decide, by decide⟩

/-- C3 (counterexample): `ftp://example.com` declares a URL scheme, yet
`App.run_audit` does not pass it through unchanged — since the string does
not start with the literal `"http"`, it is prefixed, producing
`http://ftp://example.com`. -/
theorem url_scheme_passthrough_counterexample :
    declaresScheme "ftp://example.com" = true
  ∧ run_audit_url "ftp://example.com" = some "http://ftp://example.com"
  ∧ (("http://ftp://example.com" : String) == "ftp://example.com") = false := by
  refine ⟨by decide, by decide, by decide⟩

lemma py_startswith_http_append (u : String) :
    py_startswith ("http://" ++ u) "http" = true := by
  unfold py_startswith
  apply decide_eq_true
  show "http".data <+: ("http://" ++ u).data
  refine ⟨"://".data ++ u.data, ?_⟩
  rw [← List.append_assoc]
  rfl

/-- C3 (amended): for every operator-supplied URL string whose stripped
form is non-empty, the audit is invoked on the stripped string prefixed
with `http://` when it does not start with the literal `"http"`, and on
the stripped string unchanged when it does start with `"http"`; either
way the audited URL starts with `"http"`. -/
theorem url_normalization (input : String)
    (h : (py_strip input).isEmpty = false) :
    (py_startswith (py_strip input) "http" = true →
       run_audit_url input = some (py_strip input))
  ∧ (py_startswith (py_strip input) "http" = false →
       run_audit_url input = some ("http://" ++ py_strip input))
  ∧ (∀ r, run_audit_url input = some r → py_startswith r "http" = true) := by
  refine ⟨fun hs => ?_, fun hs => ?_, fun r hr => ?_⟩
  · simp [run_audit_url, h, hs]
  · simp [run_audit_url, h, hs]
  · by_cases hs : py_startswith (py_strip input) "http"
    · simp [run_audit_url, h, hs] at hr
      rw [← hr]
      exact hs
    · simp [run_audit_url, h, hs] at hr
      rw [← hr]
      exact py_startswith_http_append (py_strip input)

/-- Witness for `url_normalization` at a concrete scheme-less input. -/
theorem url_normalization_witness :
    run_audit_url "example.com" = some ("http://" ++ py_strip "example.com") :=
  (url_normalization "example.com" (by decide)).2.1 (by decide)

end HTML5Validator
